import Mathlib

/-!
Verification of the buffer-queue subsystem of a V4L2 safety layer
(`keiichiw/v4l2_rust`), as a shallow embedding in Lean 4.

The embedding covers:
* the ioctl transport request structures (`reqbufs`, `dqbuf`),
* the dequeue result decoders (`DQBuf for ()`, `DQBuf for u32`,
  `DQBuf for DQBuffer`),
* the `QBuffer` staged builder and its `queue` / `auto_queue` operations,
  including the rollback fuse, modelled as an explicit event trace,
* the user-pointer memory strategy (`UserPtrHandle`, `Memory for UserPtr`).

Machine integers are modelled as `Nat` with explicit `% 2 ^ 32` where the
source performs an `as u32` cast.  The kernel is external: ioctl outcomes are
passed in as explicit parameters, and the kernel calls a function issues are
recorded in its event trace.
-/

/-- The four queue types the crate's example exercises.  `QueueType` itself
lives in the crate root (not under the sources verified here); the variants
are those used by `reqbufs`/`dqbuf` and the example. -/
inductive QueueType
  | VideoCapture
  | VideoOutput
  | VideoCaptureMplane
  | VideoOutputMplane
  deriving DecidableEq, Repr

/-- Numeric codes of `enum v4l2_buf_type` (a fixed external kernel
contract: CAPTURE=1, OUTPUT=2, CAPTURE_MPLANE=9, OUTPUT_MPLANE=10). -/
def QueueType.code : QueueType → Nat
  | .VideoCapture => 1
  | .VideoOutput => 2
  | .VideoCaptureMplane => 9
  | .VideoOutputMplane => 10

/-- Modelled from the spec: `is_multi_planar` lives in `ioctl/mod.rs`,
which is not among the verified sources; the transport "branches on whether
the queue format is single-planar or multi-planar".  The mplane queue types
are the multi-planar ones. -/
def is_multi_planar : QueueType → Bool
  | .VideoCaptureMplane => true
  | .VideoOutputMplane => true
  | _ => false

/-- Modelled from the spec: `MemoryType` lives in `memory/mod.rs`, not among
the verified sources.  Codes are the kernel's `enum v4l2_memory`
(MMAP=1, USERPTR=2). -/
inductive MemoryType
  | MMAP
  | UserPtr
  deriving DecidableEq, Repr

def MemoryType.code : MemoryType → Nat
  | .MMAP => 1
  | .UserPtr => 2

/-- Embeds `struct v4l2_requestbuffers`: the kernel request structure populated by
`reqbufs` (fields as in the kernel ABI; the two reserved words are kept as a
pair). -/
structure v4l2_requestbuffers where
  count : Nat
  type_ : Nat
  memory : Nat
  capabilities : Nat
  reserved0 : Nat
  reserved1 : Nat
  deriving DecidableEq, Repr

/-- Embeds `mem::zeroed()` for `v4l2_requestbuffers`. -/
def v4l2_requestbuffers.zeroed : v4l2_requestbuffers :=
  { count := 0, type_ := 0, memory := 0, capabilities := 0
    reserved0 := 0, reserved1 := 0 }

/-- The request structure built by `reqbufs` before issuing the system call
(`src/ioctl/reqbufs.rs`, lines 77-82): `count`, `type_` and `memory` set,
everything else from `mem::zeroed()`. -/
def reqbufs_request (queue : QueueType) (memory : MemoryType) (count : Nat) :
    v4l2_requestbuffers :=
  { v4l2_requestbuffers.zeroed with
    count := count
    type_ := queue.code
    memory := memory.code }

/-- Embeds `struct v4l2_plane` as decoded by `dqbuf`: only the fields the decoders
read are modelled, plus the union member and reserved area so that
zero-initialization is expressible. -/
structure v4l2_plane where
  bytesused : Nat
  length : Nat
  data_offset : Nat
  m_userptr : Nat
  reserved : Nat
  deriving DecidableEq, Repr

def v4l2_plane.zeroed : v4l2_plane :=
  { bytesused := 0, length := 0, data_offset := 0, m_userptr := 0, reserved := 0 }

/-- Embeds `VIDEO_MAX_PLANES`: capacity of the `PlaneData` array attached to a
multi-planar dequeue request. -/
def VIDEO_MAX_PLANES : Nat := 8

/-- Embeds `PlaneData = [v4l2_plane; VIDEO_MAX_PLANES]`, zero-initialized
(`Default::default()`). -/
def PlaneData.default : List v4l2_plane :=
  List.replicate VIDEO_MAX_PLANES v4l2_plane.zeroed

/-- Embeds `struct v4l2_buffer`.  The `m` union is split into its members; the
plane-array pointer becomes `Option` (`none` = null pointer).  `timestamp`
and `timecode` are collapsed to single numeric fields, which is enough to
state that they are zero-initialized. -/
structure v4l2_buffer where
  index : Nat
  type_ : Nat
  bytesused : Nat
  flags : Nat
  field : Nat
  timestamp : Nat
  timecode : Nat
  sequence : Nat
  memory : Nat
  m_offset : Nat
  m_userptr : Nat
  m_planes : Option (List v4l2_plane)
  length : Nat
  reserved2 : Nat
  reserved : Nat
  deriving DecidableEq, Repr

/-- Embeds `mem::zeroed()` for `v4l2_buffer`: every field zero, null plane pointer. -/
def v4l2_buffer.zeroed : v4l2_buffer :=
  { index := 0, type_ := 0, bytesused := 0, flags := 0, field := 0
    timestamp := 0, timecode := 0, sequence := 0, memory := 0
    m_offset := 0, m_userptr := 0, m_planes := none, length := 0
    reserved2 := 0, reserved := 0 }

/-- The request structure built by `dqbuf` before issuing the system call
(`src/ioctl/dqbuf.rs`, lines 100-109): zeroed except `type_`; on a
multi-planar queue a zeroed `PlaneData` array is attached and `length` is
set to its capacity. -/
def dqbuf_request (queue : QueueType) : v4l2_buffer :=
  let buf := { v4l2_buffer.zeroed with type_ := queue.code }
  if is_multi_planar queue then
    { buf with
      m_planes := some PlaneData.default
      length := PlaneData.default.length }
  else
    buf

/-- Embeds `BufferFlags::from_bits_truncate`: keep only the bits of the known-flag
mask (the concrete mask is declared in `ioctl/mod.rs`, outside the verified
sources, so the decoders are parametrized by it). -/
def BufferFlags.from_bits_truncate (mask bits : Nat) : Nat :=
  bits &&& mask

/-- Embeds `DQBufPlane` (`src/ioctl/dqbuf.rs`, lines 42-47). -/
structure DQBufPlane where
  length : Nat
  bytesused : Nat
  data_offset : Nat
  deriving DecidableEq, Repr

/-- Embeds `DQBuffer` (`src/ioctl/dqbuf.rs`, lines 51-58): the full-metadata safe
variant of `struct v4l2_buffer`. -/
structure DQBuffer where
  index : Nat
  flags : Nat
  field : Nat
  sequence : Nat
  planes : List DQBufPlane
  deriving DecidableEq, Repr

/-- Embeds `impl DQBuf for ()` (`src/ioctl/dqbuf.rs`, lines 22-29): discard
everything. -/
def unit_from_v4l2_buffer (_v4l2_buf : v4l2_buffer)
    (_v4l2_planes : Option (List v4l2_plane)) : Except Nat Unit :=
  .ok ()

/-- Embeds `impl DQBuf for u32` (`src/ioctl/dqbuf.rs`, lines 33-40): index only. -/
def u32_from_v4l2_buffer (v4l2_buf : v4l2_buffer)
    (_v4l2_planes : Option (List v4l2_plane)) : Except Nat Nat :=
  .ok v4l2_buf.index

/-- Embeds `impl DQBuf for DQBuffer` (`src/ioctl/dqbuf.rs`, lines 60-90): full
metadata.  `none` planes = single-planar (one entry from the top-level
structure, data-offset 0); `some` = multi-planar (`take` the reported count
from the plane array). -/
def DQBuffer.from_v4l2_buffer (mask : Nat) (v4l2_buf : v4l2_buffer)
    (v4l2_planes : Option (List v4l2_plane)) : Except Nat DQBuffer :=
  let planes :=
    match v4l2_planes with
    | none =>
      [{ length := v4l2_buf.length
         bytesused := v4l2_buf.bytesused
         data_offset := 0 : DQBufPlane }]
    | some v4l2_planes =>
      (v4l2_planes.take v4l2_buf.length).map fun v4l2_plane =>
        { length := v4l2_plane.length
          bytesused := v4l2_plane.bytesused
          data_offset := v4l2_plane.data_offset : DQBufPlane }
  .ok
    { index := v4l2_buf.index
      flags := BufferFlags.from_bits_truncate mask v4l2_buf.flags
      field := v4l2_buf.field
      sequence := v4l2_buf.sequence
      planes := planes }

/-- The memory-strategy capability interface (`Memory` trait in
`memory/mod.rs`, whose associated types `QBufType`/`DQBufType`/`HandleType`
become the type parameters `Q`/`D`/`H`).  `build_handle` produces the wire
handle for a plane; `build_dqbuftype` converts the queued backing value into
what is handed back at dequeue time. -/
structure MemoryImpl (Q D H : Type) where
  build_handle : Q → H
  build_dqbuftype : Q → D

/-- Embeds `ioctl::QBufPlane` as filled in by `Plane::cap` / `Plane::out`
(`src/device/queue/qbuf.rs`). -/
structure QBufPlane (H : Type) where
  bytesused : Nat
  data_offset : Nat
  handle : H
  deriving DecidableEq, Repr

/-- Embeds `Plane<D, M>` (`src/device/queue/qbuf.rs`, lines 179-183): the backing
value plus the wire plane descriptor built from it.  The phantom direction
parameter carries no data and is dropped. -/
structure BuilderPlane (Q H : Type) where
  backing : Q
  plane : QBufPlane H

/-- Embeds `Plane::cap` (`src/device/queue/qbuf.rs`, lines 189-203): capture plane,
bytes-used 0, data-offset 0, handle built from the backing value. -/
def BuilderPlane.cap (M : MemoryImpl Q D H) (backing : Q) : BuilderPlane Q H :=
  { backing := backing
    plane := { bytesused := 0, data_offset := 0, handle := M.build_handle backing } }

/-- Embeds `Plane::out` (`src/device/queue/qbuf.rs`, lines 210-224): output plane;
`bytes_used as u32` truncates to 32 bits. -/
def BuilderPlane.out (M : MemoryImpl Q D H) (backing : Q) (bytes_used : Nat) :
    BuilderPlane Q H :=
  { backing := backing
    plane := { bytesused := bytes_used % 2 ^ 32, data_offset := 0
               handle := M.build_handle backing } }

/-- Embeds `BufferState` (per buffer index): Free, or Queued holding the in-flight
plane handles (declared in `device/queue/mod.rs`; its two variants are the
ones `qbuf.rs` constructs and the spec describes). -/
inductive BufferState (D : Type)
  | Free
  | Queued (handles : List D)
  deriving DecidableEq, Repr

/-- The mutex-guarded tracker structure whose fields `qbuf.rs` lines 152-157
mutate: the per-index state array and the queued-buffer counter. -/
structure BuffersState (D : Type) where
  buffers_state : List (BufferState D)
  num_queued_buffers : Nat
  deriving DecidableEq, Repr

/-- Modelled from the spec: `BufferStateFuse` firing (its `Drop` impl lives
in `device/queue/mod.rs`, not among the verified sources).  "On destruction,
if not explicitly disarmed, it forces the bound index back to Free"
(re-entrant: on an already-Free index it is a no-op); the tracker invariant
"count of Queued entries always equals the tracked counter" makes the
counter drop by one exactly when the entry was Queued. -/
def fuse_fire (s : BuffersState D) (index : Nat) : BuffersState D :=
  match s.buffers_state[index]? with
  | some (BufferState.Queued _) =>
    { buffers_state := s.buffers_state.set index BufferState.Free
      num_queued_buffers := s.num_queued_buffers - 1 }
  | _ => s

/-- Modelled from the spec: `mark_free(index) -> previous handles (if any)`
on the state tracker (`device/queue/mod.rs`, not among the verified
sources); used at dequeue or stream-off to release the index and hand the
held plane handles back to the caller. -/
def mark_free (s : BuffersState D) (index : Nat) :
    BuffersState D × Option (List D) :=
  match s.buffers_state[index]? with
  | some (BufferState.Queued handles) =>
    ({ buffers_state := s.buffers_state.set index BufferState.Free
       num_queued_buffers := s.num_queued_buffers - 1 }, some handles)
  | _ => (s, none)

/-- The observable events of one `QBuffer::queue` run, in program order:
the QBUF ioctl being issued, the fuse being disarmed, the index being
recorded Queued under the tracker lock, and the armed fuse firing when the
consumed builder is destroyed. -/
inductive QueueEvent
  | ioctl_qbuf
  | fuse_disarm
  | mark_queued
  | fuse_fired
  deriving DecidableEq, Repr

/-- Embeds `crate::Error`, restricted to the variants the verified sources
construct, plus the kernel-derived error carrying the OS error code and the
queue-level `NoBuffersQueued`. -/
inductive QError
  | NotEnoughPlanes
  | TooManyPlanes
  | NoBuffersQueued
  | Nix (code : Nat)
  deriving DecidableEq, Repr

/-- Embeds `QueueError<M>` (`src/device/queue/qbuf.rs`, lines 12-15): the error
together with the plane handles returned to the user. -/
structure QueueError (D : Type) where
  error : QError
  plane_handles : List D
  deriving DecidableEq, Repr

/-- Embeds `QBuffer<'a, D, M>` (`src/device/queue/qbuf.rs`, lines 62-69).  The
queue reference disappears (the kernel outcome is passed to `queue`
explicitly); the fuse is represented by the events `queue` emits. -/
structure QBuffer (Q D H : Type) where
  index : Nat
  num_planes : Nat
  qbuffer_planes : List (QBufPlane H)
  plane_handles : List D

/-- Embeds `QBuffer::new` (`src/device/queue/qbuf.rs`, lines 72-86): empty wire
plane list, empty handle list. -/
def QBuffer.new (index num_planes : Nat) : QBuffer Q D H :=
  { index := index, num_planes := num_planes
    qbuffer_planes := [], plane_handles := [] }

/-- Embeds `QBuffer::num_set_planes` (`src/device/queue/qbuf.rs`, line 100). -/
def QBuffer.num_set_planes (qb : QBuffer Q D H) : Nat :=
  qb.qbuffer_planes.length

/-- Embeds `QBuffer::add_plane` (`src/device/queue/qbuf.rs`, lines 105-109):
push the wire plane descriptor and push `M::build_dqbuftype(backing)`. -/
def QBuffer.add_plane (M : MemoryImpl Q D H) (qb : QBuffer Q D H)
    (plane : BuilderPlane Q H) : QBuffer Q D H :=
  { qb with
    qbuffer_planes := qb.qbuffer_planes ++ [plane.plane]
    plane_handles := qb.plane_handles ++ [M.build_dqbuftype plane.backing] }

/-- Outcome of one `QBuffer::queue` run: the returned result, the tracker
state after the consumed builder has been destroyed, and the event trace. -/
structure QueueOutcome (D : Type) where
  result : Except (QueueError D) Unit
  tracker : BuffersState D
  events : List QueueEvent
  deriving Repr

/-- Embeds `QBuffer::queue` (`src/device/queue/qbuf.rs`, lines 114-161).  The
kernel's answer to the QBUF ioctl is the external parameter `kernel`.
Program order: compare accumulated plane count with expected count (`Less`
/ `Greater` return before any ioctl); on equality issue the ioctl; on ioctl
failure return the kernel error with the handles; on success disarm the
fuse, then under the tracker lock replace the index state with
`Queued(plane_handles)` and increment the queued counter.  On the error
paths the consumed builder is destroyed with the fuse still armed, so the
fuse fires. -/
def QBuffer.queue (qb : QBuffer Q D H) (tracker : BuffersState D)
    (kernel : Except Nat Unit) : QueueOutcome D :=
  let plane_handles := qb.plane_handles
  match compare qb.qbuffer_planes.length qb.num_planes with
  | .lt =>
    { result := .error { error := .NotEnoughPlanes, plane_handles := plane_handles }
      tracker := fuse_fire tracker qb.index
      events := [.fuse_fired] }
  | .gt =>
    { result := .error { error := .TooManyPlanes, plane_handles := plane_handles }
      tracker := fuse_fire tracker qb.index
      events := [.fuse_fired] }
  | .eq =>
    match kernel with
    | .error code =>
      { result := .error { error := .Nix code, plane_handles := plane_handles }
        tracker := fuse_fire tracker qb.index
        events := [.ioctl_qbuf, .fuse_fired] }
    | .ok _ =>
      { result := .ok ()
        tracker :=
          { buffers_state :=
              tracker.buffers_state.set qb.index (BufferState.Queued plane_handles)
            num_queued_buffers := tracker.num_queued_buffers + 1 }
        events := [.ioctl_qbuf, .fuse_disarm, .mark_queued] }

/-- Modelled from the spec: the MMAP memory strategy (`memory/mmap.rs`, not
among the verified sources).  "Mapped handles carry no caller data
(driver-owned)": backing, dequeue and handle types are all trivial. -/
def MMAP : MemoryImpl Unit Unit Unit :=
  { build_handle := fun _ => (), build_dqbuftype := fun _ => () }

/-- The `while` loop of `QBuffer::auto_queue` (`src/device/queue/qbuf.rs`,
lines 169-171): add empty capture MMAP planes until the set plane count
reaches the expected count. -/
def QBuffer.auto_fill_loop (qb : QBuffer Unit Unit Unit) : QBuffer Unit Unit Unit :=
  if qb.num_set_planes < qb.num_planes then
    (qb.add_plane MMAP (BuilderPlane.cap MMAP ())).auto_fill_loop
  else
    qb
termination_by qb.num_planes - qb.num_set_planes
decreasing_by
  simp only [QBuffer.num_set_planes, QBuffer.add_plane, List.length_append,
    List.length_singleton] at *
  omega

/-- Embeds `QBuffer::auto_queue` (`src/device/queue/qbuf.rs`, lines 168-173):
run the fill loop, then `queue()`. -/
def QBuffer.auto_queue (qb : QBuffer Unit Unit Unit) (tracker : BuffersState Unit)
    (kernel : Except Nat Unit) : QueueOutcome Unit :=
  qb.auto_fill_loop.queue tracker kernel

/-- The spec's description of `auto_queue` as a composition: "synthesizes
the required number of empty capture planes" via repeated `add_plane`, then
performs the ordinary submit.  Stated from the spec's words, to be compared
with `QBuffer.auto_queue` (which is translated from the source). -/
def QBuffer.auto_queue_spec (qb : QBuffer Unit Unit Unit)
    (tracker : BuffersState Unit) (kernel : Except Nat Unit) : QueueOutcome Unit :=
  (((List.replicate (qb.num_planes - qb.num_set_planes)
      (BuilderPlane.cap MMAP ())).foldl (QBuffer.add_plane MMAP) qb)).queue
    tracker kernel

/-- A borrowed byte slice `&[u8]`: base address plus length in bytes (the
two observations `UserPtrHandle::new` makes of it, via `as_ptr()` and
`len()`). -/
structure ByteSliceView where
  addr : Nat
  len : Nat
  deriving DecidableEq, Repr

/-- Embeds `UserPtrHandle` (`src/memory/userptr.rs`, lines 14-17): raw pointer and
32-bit length. -/
structure UserPtrHandle where
  ptr : Nat
  length : Nat
  deriving DecidableEq, Repr

/-- Embeds `UserPtrHandle::new` (`src/memory/userptr.rs`, lines 26-33): for any
backing value `b` of a type that can be viewed as bytes (`AsRef<[u8]>`,
modelled by `asRef`), take the slice's pointer and its `len() as u32`
(a truncating cast on 64-bit targets, hence `% 2 ^ 32`). -/
def UserPtrHandle.new (asRef : T → ByteSliceView) (b : T) : UserPtrHandle :=
  { ptr := (asRef b).addr
    length := (asRef b).len % 2 ^ 32 }

/-- Embeds `impl Memory for UserPtr<T>` (`src/memory/userptr.rs`, lines 60-72):
`QBufType = DQBufType = T`, `build_handle` delegates to
`UserPtrHandle::new`, and `build_dqbuftype` is the identity — the queued
backing object itself is what comes back at dequeue time. -/
def UserPtrMemory (asRef : T → ByteSliceView) : MemoryImpl T T UserPtrHandle :=
  { build_handle := UserPtrHandle.new asRef
    build_dqbuftype := fun qb => qb }

/-- The kernel calls a queue-level dequeue may issue. -/
inductive DequeueEvent
  | ioctl_dqbuf
  deriving DecidableEq, Repr

/-- Modelled from the spec: the queue-level dequeue operation
(`Queue::dequeue` in `device/queue/mod.rs`, not among the verified
sources).  "Fails with `NoBuffersQueued` if the queued-count is zero"
before any kernel call; otherwise it issues the dequeue ioctl, decodes the
kernel result, and releases the returned index via `mark_free`, handing the
held plane handles back.  The kernel's answer is the external parameter
`kernel` (the filled buffer structure and, on multi-planar queues, the
plane array). -/
def Queue.dequeue (tracker : BuffersState D) (mask : Nat)
    (kernel : Except Nat (v4l2_buffer × Option (List v4l2_plane))) :
    Except QError (DQBuffer × Option (List D)) × BuffersState D × List DequeueEvent :=
  if tracker.num_queued_buffers = 0 then
    (.error .NoBuffersQueued, tracker, [])
  else
    match kernel with
    | .error code => (.error (.Nix code), tracker, [.ioctl_dqbuf])
    | .ok (v4l2_buf, v4l2_planes) =>
      match DQBuffer.from_v4l2_buffer mask v4l2_buf v4l2_planes with
      | .error code => (.error (.Nix code), tracker, [.ioctl_dqbuf])
      | .ok dq =>
        match mark_free tracker dq.index with
        | (tracker, handles) => (.ok (dq, handles), tracker, [.ioctl_dqbuf])

/-! ## Helper lemmas -/

theorem fuse_fire_of_free (s : BuffersState D) (i : Nat)
    (h : s.buffers_state[i]? = some BufferState.Free) : fuse_fire s i = s := by
  simp [fuse_fire, h]

theorem foldl_add_plane_fields (M : MemoryImpl Q D H)
    (ps : List (BuilderPlane Q H)) : ∀ qb : QBuffer Q D H,
    (ps.foldl (QBuffer.add_plane M) qb).index = qb.index ∧
    (ps.foldl (QBuffer.add_plane M) qb).num_planes = qb.num_planes ∧
    (ps.foldl (QBuffer.add_plane M) qb).qbuffer_planes
      = qb.qbuffer_planes ++ ps.map BuilderPlane.plane ∧
    (ps.foldl (QBuffer.add_plane M) qb).plane_handles
      = qb.plane_handles ++ ps.map fun p => M.build_dqbuftype p.backing := by
  induction ps with
  | nil => intro qb; simp
  | cons p ps ih =>
    intro qb
    obtain ⟨h1, h2, h3, h4⟩ := ih (qb.add_plane M p)
    simp only [QBuffer.add_plane] at h1 h2 h3 h4
    simp only [List.foldl_cons, List.map_cons, QBuffer.add_plane]
    exact ⟨h1, h2, by rw [h3]; simp, by rw [h4]; simp⟩

theorem auto_fill_loop_eq_replicate (k : Nat) :
    ∀ qb : QBuffer Unit Unit Unit, qb.num_planes - qb.num_set_planes = k →
    qb.auto_fill_loop
      = (List.replicate k (BuilderPlane.cap MMAP ())).foldl (QBuffer.add_plane MMAP) qb := by
  induction k with
  | zero =>
    intro qb h
    rw [QBuffer.auto_fill_loop]
    have hn : ¬ qb.num_set_planes < qb.num_planes := by omega
    rw [if_neg hn]
    simp
  | succ k ih =>
    intro qb h
    rw [QBuffer.auto_fill_loop]
    have hlt : qb.num_set_planes < qb.num_planes := by omega
    rw [if_pos hlt, List.replicate_succ, List.foldl_cons]
    refine ih _ ?_
    simp only [QBuffer.num_set_planes, QBuffer.add_plane, List.length_append,
      List.length_singleton] at *
    omega

/-! ## Claim theorems -/

/-- C8: the `reqbufs` transport passes a request structure that is
zero-initialized except for the requested count, the queue type and the
memory type; the `dqbuf` transport passes a buffer structure that is
zero-initialized except for the queue type and, on multi-planar queues, the
attached plane array and its length. -/
theorem reqbufs_dqbuf_requests_zero_initialized (queue : QueueType)
    (memory : MemoryType) (count : Nat) :
    (reqbufs_request queue memory count).count = count ∧
    (reqbufs_request queue memory count).type_ = queue.code ∧
    (reqbufs_request queue memory count).memory = memory.code ∧
    (reqbufs_request queue memory count).capabilities = 0 ∧
    (reqbufs_request queue memory count).reserved0 = 0 ∧
    (reqbufs_request queue memory count).reserved1 = 0 ∧
    (dqbuf_request queue).type_ = queue.code ∧
    (dqbuf_request queue).index = 0 ∧
    (dqbuf_request queue).bytesused = 0 ∧
    (dqbuf_request queue).flags = 0 ∧
    (dqbuf_request queue).field = 0 ∧
    (dqbuf_request queue).timestamp = 0 ∧
    (dqbuf_request queue).timecode = 0 ∧
    (dqbuf_request queue).sequence = 0 ∧
    (dqbuf_request queue).memory = 0 ∧
    (dqbuf_request queue).m_offset = 0 ∧
    (dqbuf_request queue).m_userptr = 0 ∧
    (dqbuf_request queue).reserved2 = 0 ∧
    (dqbuf_request queue).reserved = 0 ∧
    (dqbuf_request queue).m_planes
      = (if is_multi_planar queue then some PlaneData.default else none) ∧
    (dqbuf_request queue).length
      = (if is_multi_planar queue then VIDEO_MAX_PLANES else 0) := by
  cases queue <;> cases memory <;>
    simp [reqbufs_request, dqbuf_request, v4l2_requestbuffers.zeroed,
      v4l2_buffer.zeroed, is_multi_planar, PlaneData.default, VIDEO_MAX_PLANES]

/-- C10: the three dequeue result decoders are total — they succeed on every
kernel-returned buffer structure; the full-metadata decoder truncates
unknown flag bits (every bit of the decoded flags is a bit of both the raw
flags and the known-flag mask), and on multi-planar queues the number of
decoded plane entries is `min` of the kernel-reported count and the plane
array's capacity, so a count beyond the capacity is capped. -/
theorem dqbuf_decoders_total (mask : Nat) (v4l2_buf : v4l2_buffer)
    (planeArr : List v4l2_plane) (v4l2_planes : Option (List v4l2_plane)) :
    unit_from_v4l2_buffer v4l2_buf v4l2_planes = .ok () ∧
    u32_from_v4l2_buffer v4l2_buf v4l2_planes = .ok v4l2_buf.index ∧
    (∃ dq, DQBuffer.from_v4l2_buffer mask v4l2_buf v4l2_planes = .ok dq ∧
      ∀ i, dq.flags.testBit i = (v4l2_buf.flags.testBit i && mask.testBit i)) ∧
    (∃ dq, DQBuffer.from_v4l2_buffer mask v4l2_buf (some planeArr) = .ok dq ∧
      dq.planes.length = min v4l2_buf.length planeArr.length) := by
  refine ⟨rfl, rfl, ⟨_, rfl, fun i => ?_⟩, ⟨_, rfl, ?_⟩⟩
  · simp [DQBuffer.from_v4l2_buffer, BufferFlags.from_bits_truncate,
      Nat.testBit_land]
  · simp [DQBuffer.from_v4l2_buffer, List.length_take]

/-- C6 counterexample: a kernel-returned multi-planar buffer structure
reporting 9 planes (one more than the plane array's capacity of 8) decodes
to a result with 8 plane entries, not "exactly as many entries as the
kernel's reported plane count". -/
theorem dqbuffer_decode_plane_count_counterexample :
    DQBuffer.from_v4l2_buffer 0 { v4l2_buffer.zeroed with length := 9 }
        (some PlaneData.default)
      = .ok { index := 0, flags := 0, field := 0, sequence := 0
              planes := List.replicate 8
                { length := 0, bytesused := 0, data_offset := 0 } } ∧
    (List.replicate 8
        ({ length := 0, bytesused := 0, data_offset := 0 } : DQBufPlane)).length
      ≠ ({ v4l2_buffer.zeroed with length := 9 } : v4l2_buffer).length := by
  exact ⟨rfl, by decide⟩

/-- C6 (amended): the full-metadata decode of a dequeued buffer carries the
kernel's index, truncated flags, field and sequence number; on a
single-planar queue it has exactly one plane entry, taken from the
top-level structure with data-offset 0; on a multi-planar queue it has
`min(reported plane count, plane-array capacity)` entries, each copied from
the auxiliary per-plane array. -/
theorem dqbuffer_decode_shape (mask : Nat) (v4l2_buf : v4l2_buffer)
    (planeArr : List v4l2_plane) :
    (∃ dq, DQBuffer.from_v4l2_buffer mask v4l2_buf none = .ok dq ∧
      dq.index = v4l2_buf.index ∧
      dq.flags = BufferFlags.from_bits_truncate mask v4l2_buf.flags ∧
      dq.field = v4l2_buf.field ∧
      dq.sequence = v4l2_buf.sequence ∧
      dq.planes = [{ length := v4l2_buf.length
                     bytesused := v4l2_buf.bytesused
                     data_offset := 0 }]) ∧
    (∃ dq, DQBuffer.from_v4l2_buffer mask v4l2_buf (some planeArr) = .ok dq ∧
      dq.index = v4l2_buf.index ∧
      dq.flags = BufferFlags.from_bits_truncate mask v4l2_buf.flags ∧
      dq.field = v4l2_buf.field ∧
      dq.sequence = v4l2_buf.sequence ∧
      dq.planes.length = min v4l2_buf.length planeArr.length ∧
      dq.planes = (planeArr.take v4l2_buf.length).map fun p =>
        { length := p.length, bytesused := p.bytesused
          data_offset := p.data_offset }) := by
  refine ⟨⟨_, rfl, rfl, rfl, rfl, rfl, rfl⟩, ⟨_, rfl, rfl, rfl, rfl, rfl, ?_, rfl⟩⟩
  simp [DQBuffer.from_v4l2_buffer, List.length_take]

/-- C7: dequeuing from a queue whose queued-buffer count is zero fails
immediately with `NoBuffersQueued`, leaves the tracker untouched, and
issues no kernel call (empty event trace). -/
theorem dequeue_no_buffers_queued (buffers : List (BufferState D)) (mask : Nat)
    (kernel : Except Nat (v4l2_buffer × Option (List v4l2_plane))) :
    Queue.dequeue { buffers_state := buffers, num_queued_buffers := 0 } mask kernel
      = (.error .NoBuffersQueued,
         { buffers_state := buffers, num_queued_buffers := 0 }, []) := by
  simp [Queue.dequeue]

/-- C1: when the accumulated plane count differs from the expected count,
`queue()` fails with `NotEnoughPlanes` (the spec's `TooFewPlanes`) when
fewer and `TooManyPlanes` when more, carrying every accumulated plane
handle back to the caller; no kernel call appears in the trace, the tracker
is not mutated, and the buffer index remains Free after the consumed
builder is destroyed (the still-armed fuse fires on a Free index, a
no-op). -/
theorem queue_plane_count_mismatch (qb : QBuffer Q D H) (tracker : BuffersState D)
    (kernel : Except Nat Unit)
    (hms : qb.qbuffer_planes.length ≠ qb.num_planes)
    (hfree : tracker.buffers_state[qb.index]? = some BufferState.Free) :
    (qb.queue tracker kernel).result
      = .error { error := if qb.qbuffer_planes.length < qb.num_planes
                   then QError.NotEnoughPlanes else QError.TooManyPlanes
                 plane_handles := qb.plane_handles } ∧
    (qb.queue tracker kernel).tracker = tracker ∧
    (qb.queue tracker kernel).events = [QueueEvent.fuse_fired] ∧
    QueueEvent.ioctl_qbuf ∉ (qb.queue tracker kernel).events ∧
    (qb.queue tracker kernel).tracker.buffers_state[qb.index]?
      = some BufferState.Free := by
  rcases Nat.lt_or_ge qb.qbuffer_planes.length qb.num_planes with hlt | hge
  · have hc : compare qb.qbuffer_planes.length qb.num_planes = Ordering.lt :=
      Nat.compare_eq_lt.mpr hlt
    simp [QBuffer.queue, hc, fuse_fire_of_free tracker qb.index hfree, hlt, hfree]
  · have hgt : qb.num_planes < qb.qbuffer_planes.length := by omega
    have hc : compare qb.qbuffer_planes.length qb.num_planes = Ordering.gt :=
      Nat.compare_eq_gt.mpr hgt
    have hnlt : ¬ qb.qbuffer_planes.length < qb.num_planes := by omega
    simp [QBuffer.queue, hc, fuse_fire_of_free tracker qb.index hfree, hnlt, hfree]

theorem queue_plane_count_mismatch_witness :
    ([] : List (QBufPlane Unit)).length ≠ 1 ∧
    ({ buffers_state := [BufferState.Free], num_queued_buffers := 0 } :
        BuffersState Unit).buffers_state[(0 : Nat)]? = some BufferState.Free ∧
    (QBuffer.queue (Q := Unit) (D := Unit) (H := Unit)
        ⟨0, 1, [], []⟩ ⟨[BufferState.Free], 0⟩ (.ok ())).result
      = .error { error := QError.NotEnoughPlanes, plane_handles := [] } :=
  ⟨by decide, rfl, by
    have h := queue_plane_count_mismatch (Q := Unit) (D := Unit) (H := Unit)
      ⟨0, 1, [], []⟩ ⟨[BufferState.Free], 0⟩ (.ok ()) (by decide) rfl
    simpa using h.1⟩

/-- C2: when the accumulated plane count matches and the QBUF ioctl
succeeds, `queue()` emits exactly the trace `[ioctl, fuse-disarm,
mark-queued]` — the fuse is disarmed exactly once, after the ioctl succeeds
and before the index is recorded Queued — and the tracker ends with the
index holding `Queued(plane_handles)` and the queued-buffer counter
incremented by exactly one. -/
theorem queue_success_disarms_then_marks_queued (qb : QBuffer Q D H)
    (tracker : BuffersState D)
    (hcount : qb.qbuffer_planes.length = qb.num_planes)
    (hidx : qb.index < tracker.buffers_state.length) :
    (qb.queue tracker (.ok ())).result = .ok () ∧
    (qb.queue tracker (.ok ())).events
      = [QueueEvent.ioctl_qbuf, QueueEvent.fuse_disarm, QueueEvent.mark_queued] ∧
    (qb.queue tracker (.ok ())).events.count QueueEvent.fuse_disarm = 1 ∧
    (qb.queue tracker (.ok ())).tracker.buffers_state[qb.index]?
      = some (BufferState.Queued qb.plane_handles) ∧
    (qb.queue tracker (.ok ())).tracker.num_queued_buffers
      = tracker.num_queued_buffers + 1 := by
  have hc : compare qb.qbuffer_planes.length qb.num_planes = Ordering.eq :=
    Nat.compare_eq_eq.mpr hcount
  simp [QBuffer.queue, hc, List.getElem?_set_self, hidx, List.count_cons]

theorem queue_success_disarms_then_marks_queued_witness :
    ([] : List (QBufPlane Unit)).length = 0 ∧ (0 : Nat) < 1 ∧
    ((QBuffer.queue (Q := Unit) (D := Unit) (H := Unit)
        ⟨0, 0, [], []⟩ ⟨[BufferState.Free], 0⟩ (.ok ())).events
      = [QueueEvent.ioctl_qbuf, QueueEvent.fuse_disarm, QueueEvent.mark_queued] ∧
    (QBuffer.queue (Q := Unit) (D := Unit) (H := Unit)
        ⟨0, 0, [], []⟩ ⟨[BufferState.Free], 0⟩ (.ok ())).tracker.num_queued_buffers
      = 1) :=
  ⟨rfl, by decide, by
    have h := queue_success_disarms_then_marks_queued (Q := Unit) (D := Unit)
      (H := Unit) ⟨0, 0, [], []⟩ ⟨[BufferState.Free], 0⟩ rfl (by decide)
    exact ⟨h.2.1, h.2.2.2.2⟩⟩

/-- C3: when the plane count matches but the QBUF ioctl fails, `queue()`
returns the kernel-derived error together with every accumulated plane
handle; the trace contains no fuse-disarm and no mark-queued, the tracker
is unchanged (counter included), and the index is Free after the consumed
builder is destroyed. -/
theorem queue_ioctl_failure_returns_handles (qb : QBuffer Q D H)
    (tracker : BuffersState D) (code : Nat)
    (hcount : qb.qbuffer_planes.length = qb.num_planes)
    (hfree : tracker.buffers_state[qb.index]? = some BufferState.Free) :
    (qb.queue tracker (.error code)).result
      = .error { error := QError.Nix code, plane_handles := qb.plane_handles } ∧
    (qb.queue tracker (.error code)).events
      = [QueueEvent.ioctl_qbuf, QueueEvent.fuse_fired] ∧
    QueueEvent.fuse_disarm ∉ (qb.queue tracker (.error code)).events ∧
    QueueEvent.mark_queued ∉ (qb.queue tracker (.error code)).events ∧
    (qb.queue tracker (.error code)).tracker = tracker ∧
    (qb.queue tracker (.error code)).tracker.buffers_state[qb.index]?
      = some BufferState.Free := by
  have hc : compare qb.qbuffer_planes.length qb.num_planes = Ordering.eq :=
    Nat.compare_eq_eq.mpr hcount
  simp [QBuffer.queue, hc, fuse_fire_of_free tracker qb.index hfree, hfree]

theorem queue_ioctl_failure_returns_handles_witness :
    ([{ bytesused := 0, data_offset := 0, handle := 5 }] :
        List (QBufPlane Nat)).length = 1 ∧
    ({ buffers_state := [BufferState.Free], num_queued_buffers := 0 } :
        BuffersState Nat).buffers_state[(0 : Nat)]? = some BufferState.Free ∧
    (QBuffer.queue (Q := Nat) (D := Nat) (H := Nat)
        ⟨0, 1, [{ bytesused := 0, data_offset := 0, handle := 5 }], [7]⟩
        ⟨[BufferState.Free], 0⟩ (.error 22)).result
      = .error { error := QError.Nix 22, plane_handles := [7] } :=
  ⟨rfl, rfl, by
    have h := queue_ioctl_failure_returns_handles (Q := Nat) (D := Nat) (H := Nat)
      ⟨0, 1, [{ bytesused := 0, data_offset := 0, handle := 5 }], [7]⟩
      ⟨[BufferState.Free], 0⟩ 22 rfl rfl
    exact h.1⟩

theorem queue_result_ok_or_error_with_handles (qb : QBuffer Q D H)
    (tracker : BuffersState D) (kernel : Except Nat Unit) :
    (qb.queue tracker kernel).result = .ok () ∨
    ∃ e, (qb.queue tracker kernel).result
      = .error { error := e, plane_handles := qb.plane_handles } := by
  cases hc : compare qb.qbuffer_planes.length qb.num_planes with
  | lt => exact .inr ⟨.NotEnoughPlanes, by simp [QBuffer.queue, hc]⟩
  | gt => exact .inr ⟨.TooManyPlanes, by simp [QBuffer.queue, hc]⟩
  | eq =>
    cases kernel with
    | error code => exact .inr ⟨.Nix code, by simp [QBuffer.queue, hc]⟩
    | ok u => exact .inl (by simp [QBuffer.queue, hc])

/-- C9: the stored plane handles and the wire plane descriptors of a
`QBuffer` stay in one-to-one correspondence through its whole life: both
start empty at `new`, each `add_plane` appends exactly one element to each,
so after any sequence of `add_plane` calls the descriptors and handles are
the added planes' descriptors and backing-derived handles in order,
`num_set_planes` equals the number of held handles, and any error `queue()`
returns carries exactly that handle list. -/
theorem qbuffer_handles_planes_correspondence (M : MemoryImpl Q D H)
    (i n : Nat) (ps : List (BuilderPlane Q H)) (p : BuilderPlane Q H)
    (tracker : BuffersState D) (kernel : Except Nat Unit) :
    (QBuffer.new i n : QBuffer Q D H).qbuffer_planes = [] ∧
    (QBuffer.new i n : QBuffer Q D H).plane_handles = [] ∧
    ((ps.foldl (QBuffer.add_plane M) (QBuffer.new i n)).add_plane M p).qbuffer_planes
      = (ps.foldl (QBuffer.add_plane M) (QBuffer.new i n)).qbuffer_planes
          ++ [p.plane] ∧
    ((ps.foldl (QBuffer.add_plane M) (QBuffer.new i n)).add_plane M p).plane_handles
      = (ps.foldl (QBuffer.add_plane M) (QBuffer.new i n)).plane_handles
          ++ [M.build_dqbuftype p.backing] ∧
    (ps.foldl (QBuffer.add_plane M) (QBuffer.new i n)).qbuffer_planes
      = ps.map BuilderPlane.plane ∧
    (ps.foldl (QBuffer.add_plane M) (QBuffer.new i n)).plane_handles
      = ps.map (fun q => M.build_dqbuftype q.backing) ∧
    (ps.foldl (QBuffer.add_plane M) (QBuffer.new i n)).num_set_planes
      = (ps.foldl (QBuffer.add_plane M) (QBuffer.new i n)).plane_handles.length ∧
    (((ps.foldl (QBuffer.add_plane M) (QBuffer.new i n)).queue tracker kernel).result
        = .ok () ∨
      ∃ e, ((ps.foldl (QBuffer.add_plane M) (QBuffer.new i n)).queue
          tracker kernel).result
        = .error { error := e
                   plane_handles :=
                     (ps.foldl (QBuffer.add_plane M) (QBuffer.new i n)).plane_handles }) := by
  obtain ⟨h1, h2, h3, h4⟩ := foldl_add_plane_fields M ps (QBuffer.new i n)
  have h3' : (ps.foldl (QBuffer.add_plane M) (QBuffer.new i n)).qbuffer_planes
      = ps.map BuilderPlane.plane := h3
  have h4' : (ps.foldl (QBuffer.add_plane M) (QBuffer.new i n)).plane_handles
      = ps.map (fun q => M.build_dqbuftype q.backing) := h4
  refine ⟨rfl, rfl, rfl, rfl, h3', h4', ?_, ?_⟩
  · simp [QBuffer.num_set_planes, h3', h4']
  · exact queue_result_ok_or_error_with_handles _ tracker kernel

/-- C4: for capture MMAP buffers, `auto_queue` equals the plain composition
the spec describes — repeatedly `add_plane` an empty capture plane
(bytes-used 0, data-offset 0) until the set plane count reaches the
expected count, then the ordinary `queue()` — for every builder state,
tracker state and kernel outcome; it is not a separate submission path. -/
theorem auto_queue_eq_add_plane_then_queue (qb : QBuffer Unit Unit Unit)
    (tracker : BuffersState Unit) (kernel : Except Nat Unit) :
    qb.auto_queue tracker kernel = qb.auto_queue_spec tracker kernel ∧
    (BuilderPlane.cap MMAP ()).plane.bytesused = 0 ∧
    (BuilderPlane.cap MMAP ()).plane.data_offset = 0 := by
  refine ⟨?_, rfl, rfl⟩
  unfold QBuffer.auto_queue QBuffer.auto_queue_spec
  rw [auto_fill_loop_eq_replicate (qb.num_planes - qb.num_set_planes) qb rfl]

/-- C5 counterexample: the handle does not always carry exactly the byte
length of the caller-supplied slice — `len() as u32` truncates.  A backing
object whose byte view has length `2 ^ 32` (a 4 GiB slice on a 64-bit
target) yields a handle of length 0. -/
theorem userptr_handle_length_counterexample :
    (UserPtrHandle.new (fun _ : Unit => { addr := 4096, len := 2 ^ 32 }) ()).length
      = 0 ∧
    ((fun _ : Unit => ({ addr := 4096, len := 2 ^ 32 } : ByteSliceView)) ()).len
      ≠ 0 := by
  constructor
  · show 2 ^ 32 % 2 ^ 32 = 0
    exact Nat.mod_self _
  · show (2 : Nat) ^ 32 ≠ 0
    positivity

/-- C5 (amended): the handle created at queue time carries exactly the
address of the caller-supplied byte slice and its byte length reduced
modulo `2 ^ 32` (so exactly the length whenever the slice is smaller than
4 GiB); the dequeue-side conversion is the identity, so after a successful
queue the tracker holds the caller's exact backing objects and releasing
the index (at dequeue or stream-off) returns that exact list unchanged. -/
theorem userptr_handle_and_roundtrip {T : Type} (asRef : T → ByteSliceView)
    (b : T) (i n : Nat) (ps : List (BuilderPlane T UserPtrHandle))
    (tracker : BuffersState T)
    (hcount : ps.length = n) (hidx : i < tracker.buffers_state.length) :
    (UserPtrHandle.new asRef b).ptr = (asRef b).addr ∧
    (UserPtrHandle.new asRef b).length = (asRef b).len % 2 ^ 32 ∧
    (UserPtrMemory asRef).build_dqbuftype b = b ∧
    ((ps.foldl (QBuffer.add_plane (UserPtrMemory asRef)) (QBuffer.new i n)).queue
        tracker (.ok ())).result = .ok () ∧
    (mark_free
        ((ps.foldl (QBuffer.add_plane (UserPtrMemory asRef)) (QBuffer.new i n)).queue
          tracker (.ok ())).tracker i).2
      = some (ps.map BuilderPlane.backing) := by
  obtain ⟨h1, h2, h3, h4⟩ :=
    foldl_add_plane_fields (UserPtrMemory asRef) ps (QBuffer.new i n)
  have hi : (ps.foldl (QBuffer.add_plane (UserPtrMemory asRef))
      (QBuffer.new i n)).index = i := h1
  have hn : (ps.foldl (QBuffer.add_plane (UserPtrMemory asRef))
      (QBuffer.new i n)).num_planes = n := h2
  have h3' : (ps.foldl (QBuffer.add_plane (UserPtrMemory asRef))
      (QBuffer.new i n)).qbuffer_planes = ps.map BuilderPlane.plane := h3
  have hpl : (ps.foldl (QBuffer.add_plane (UserPtrMemory asRef))
      (QBuffer.new i n)).plane_handles = ps.map BuilderPlane.backing := h4
  have hc : compare (ps.foldl (QBuffer.add_plane (UserPtrMemory asRef))
        (QBuffer.new i n)).qbuffer_planes.length
      (ps.foldl (QBuffer.add_plane (UserPtrMemory asRef))
        (QBuffer.new i n)).num_planes = Ordering.eq := by
    rw [h3', hn, List.length_map, hcount]
    exact Nat.compare_eq_eq.mpr rfl
  refine ⟨rfl, rfl, rfl, ?_, ?_⟩
  · simp [QBuffer.queue, hc]
  · have hqueue_tracker :
        ((ps.foldl (QBuffer.add_plane (UserPtrMemory asRef))
            (QBuffer.new i n)).queue tracker (.ok ())).tracker
          = { buffers_state := tracker.buffers_state.set i
                (BufferState.Queued (ps.map BuilderPlane.backing))
              num_queued_buffers := tracker.num_queued_buffers + 1 } := by
      simp [QBuffer.queue, hc, hi, hpl]
    rw [hqueue_tracker]
    simp [mark_free, List.getElem?_set_self, hidx]

theorem userptr_handle_and_roundtrip_witness :
    ([BuilderPlane.cap (UserPtrMemory fun x : Nat => { addr := x, len := 4 }) 42] :
        List (BuilderPlane Nat UserPtrHandle)).length = 1 ∧
    (0 : Nat) <
      ({ buffers_state := [BufferState.Free], num_queued_buffers := 0 } :
        BuffersState Nat).buffers_state.length ∧
    (mark_free
        (QBuffer.queue
          (([BuilderPlane.cap (UserPtrMemory fun x : Nat => { addr := x, len := 4 }) 42]).foldl
            (QBuffer.add_plane (UserPtrMemory fun x : Nat => { addr := x, len := 4 }))
            (QBuffer.new 0 1))
          { buffers_state := [BufferState.Free], num_queued_buffers := 0 }
          (.ok ())).tracker 0).2
      = some [42] :=
  ⟨rfl, by decide, by
    have h := userptr_handle_and_roundtrip
      (fun x : Nat => { addr := x, len := 4 }) 0 0 1
      [BuilderPlane.cap (UserPtrMemory fun x : Nat => { addr := x, len := 4 }) 42]
      { buffers_state := [BufferState.Free], num_queued_buffers := 0 }
      rfl (by decide)
    simpa using h.2.2.2.2⟩
